import Mathlib

/-!
Verification of the camera-follow and coordinate-transform subsystem of the
PinBall repository.

The pure math utilities are embedded from `src/utils/camera-utils.ts`; the
`Camera` class is embedded from the planned implementation in
`docs/plan.md` (`src/core/Camera.ts`, Phase 2.1).  All numeric quantities
are modelled as exact rationals (`ℚ`): the source uses double-precision
floats and the spec's "within floating-point tolerance" statements become
exact equalities in this model.
-/

namespace PinBall

/-! ## Pure math utilities (`src/utils/camera-utils.ts`) -/

/-- Source function `lerp(a, b, t) = a + (b - a) * t`. -/
def lerp (a b t : ℚ) : ℚ := a + (b - a) * t

/-- Source function `clamp(value, min, max) = Math.max(min, Math.min(max, value))`. -/
def clamp (value lo hi : ℚ) : ℚ := max lo (min hi value)

/-- Source function `smoothStep(edge0, edge1, x)`: `t = clamp((x−edge0)/(edge1−edge0), 0, 1)`
then `t*t*(3 − 2*t)`. -/
def smoothStep (edge0 edge1 x : ℚ) : ℚ :=
  let t := clamp ((x - edge0) / (edge1 - edge0)) 0 1
  t * t * (3 - 2 * t)

/-- Free function `worldToScreen(worldX, worldY, cameraX, cameraY, zoom)` from
`camera-utils.ts`: `((worldX − cameraX) * zoom, (worldY − cameraY) * zoom)`. -/
def worldToScreen (worldX worldY cameraX cameraY zoom : ℚ) : ℚ × ℚ :=
  ((worldX - cameraX) * zoom, (worldY - cameraY) * zoom)

/-- Free function `screenToWorld(screenX, screenY, cameraX, cameraY, zoom)` from
`camera-utils.ts`: `(screenX / zoom + cameraX, screenY / zoom + cameraY)`. -/
def screenToWorld (screenX screenY cameraX cameraY zoom : ℚ) : ℚ × ℚ :=
  (screenX / zoom + cameraX, screenY / zoom + cameraY)

/-! ## Camera class (`docs/plan.md`, planned `src/core/Camera.ts`) -/

/-- The `CameraConfig` interface. -/
structure CameraConfig where
  viewportWidth : ℚ
  viewportHeight : ℚ
  worldWidth : ℚ
  worldHeight : ℚ
  followSpeed : ℚ
  lookAhead : ℚ
  minZoom : ℚ
  maxZoom : ℚ
deriving DecidableEq

/-- The per-tick snapshot of a followed `Matter.Body`: its position and
velocity, the only fields `Camera.update` reads. -/
structure Body where
  posX : ℚ
  posY : ℚ
  velX : ℚ
  velY : ℚ
deriving DecidableEq

/-- The mutable state of the `Camera` class: configuration, the optional
followed body, and the current/target position and zoom fields. -/
structure Camera where
  config : CameraConfig
  target : Option Body
  currentX : ℚ
  currentY : ℚ
  currentZoom : ℚ
  targetX : ℚ
  targetY : ℚ
  targetZoom : ℚ
deriving DecidableEq

namespace Camera

/-- Method `follow(target)`: set the physics body to follow. -/
def follow (c : Camera) (b : Body) : Camera := { c with target := some b }

/-- Method `stopFollowing()`: `this.target = null`. -/
def stopFollowing (c : Camera) : Camera := { c with target := none }

/-- Method `setPosition(x, y)`: clears the followed target and pins `targetX`/`targetY`. -/
def setPosition (c : Camera) (x y : ℚ) : Camera :=
  { c with target := none, targetX := x, targetY := y }

/-- Method `setZoom(level)`:
`this.targetZoom = Math.max(this.config.minZoom, Math.min(this.config.maxZoom, level))`. -/
def setZoom (c : Camera) (level : ℚ) : Camera :=
  { c with targetZoom := max c.config.minZoom (min c.config.maxZoom level) }

/-- The x component of the target position `update` computes before
clamping to world bounds: when following,
`desiredX + lookAheadX = (target.position.x − viewportWidth/2) + target.velocity.x * lookAhead`;
otherwise the stored `targetX`. -/
def preClampTargetX (c : Camera) : ℚ :=
  match c.target with
  | some b => (b.posX - c.config.viewportWidth / 2) + b.velX * c.config.lookAhead
  | none => c.targetX

/-- The y component of the target position `update` computes before
clamping to world bounds. -/
def preClampTargetY (c : Camera) : ℚ :=
  match c.target with
  | some b => (b.posY - c.config.viewportHeight / 2) + b.velY * c.config.lookAhead
  | none => c.targetY

/-- Method `update(deltaTime)` from `docs/plan.md`: recompute the target from the
followed body (if any), clamp it to
`[0, worldWidth − viewportWidth] × [0, worldHeight − viewportHeight]`,
then advance `currentX`/`currentY`/`currentZoom` toward their targets by the
factor `followSpeed * deltaTime * 60` (the source applies no clamp to this
factor). -/
def update (c : Camera) (deltaTime : ℚ) : Camera :=
  let tX := max 0 (min (c.config.worldWidth - c.config.viewportWidth) c.preClampTargetX)
  let tY := max 0 (min (c.config.worldHeight - c.config.viewportHeight) c.preClampTargetY)
  let smoothFactor := c.config.followSpeed * deltaTime * 60
  { c with
    targetX := tX
    targetY := tY
    currentX := c.currentX + (tX - c.currentX) * smoothFactor
    currentY := c.currentY + (tY - c.currentY) * smoothFactor
    currentZoom := c.currentZoom + (c.targetZoom - c.currentZoom) * smoothFactor }

/-- Method `worldToScreen(worldX, worldY)` of the `Camera` class. -/
def toScreen (c : Camera) (worldX worldY : ℚ) : ℚ × ℚ :=
  ((worldX - c.currentX) * c.currentZoom, (worldY - c.currentY) * c.currentZoom)

/-- Method `screenToWorld(screenX, screenY)` of the `Camera` class. -/
def toWorld (c : Camera) (screenX screenY : ℚ) : ℚ × ℚ :=
  (screenX / c.currentZoom + c.currentX, screenY / c.currentZoom + c.currentY)

/-- Iterated `update` with a fixed time step. -/
def updateIter (c : Camera) (dt : ℚ) : ℕ → Camera
  | 0 => c
  | n + 1 => (c.updateIter dt n).update dt

end Camera

/-- The configuration documented in `constants.ts` and the spec's concrete
scenario: viewport 540×960, world 1620×2880, `FOLLOW_SPEED = 0.08`,
`LOOK_AHEAD = 0.5`, zoom bounds `[0.6, 1.2]`. -/
def defaultConfig : CameraConfig :=
  { viewportWidth := 540, viewportHeight := 960
    worldWidth := 1620, worldHeight := 2880
    followSpeed := 8/100, lookAhead := 1/2
    minZoom := 6/10, maxZoom := 12/10 }

/-- The spec's concrete scenario camera: entity at `(810, 1440)` with zero
velocity, camera at `(0,0)`, zoom fixed at `1.0`. -/
def scenarioCam : Camera :=
  { config := defaultConfig
    target := some { posX := 810, posY := 1440, velX := 0, velY := 0 }
    currentX := 0, currentY := 0, currentZoom := 1
    targetX := 0, targetY := 0, targetZoom := 1 }

/-- The spec's look-ahead scenario camera: same setup but entity velocity
`(100, 0)`. -/
def lookAheadCam : Camera :=
  { config := defaultConfig
    target := some { posX := 810, posY := 1440, velX := 100, velY := 0 }
    currentX := 0, currentY := 0, currentZoom := 1
    targetX := 0, targetY := 0, targetZoom := 1 }

/-- A camera that is not following any entity, with its target pinned at
`(540, 960)` (inside the world-bounds clamp range) — a "fixed, unmoving
target" configuration. -/
def fixedCam : Camera :=
  { config := defaultConfig
    target := none
    currentX := 0, currentY := 0, currentZoom := 1
    targetX := 540, targetY := 960, targetZoom := 1 }

/-! ## Helper lemmas -/

/-- Clamping to `[0, 1]` produces a value in `[0, 1]`. -/
lemma clamp01_mem (v : ℚ) : 0 ≤ clamp v 0 1 ∧ clamp v 0 1 ≤ 1 :=
  ⟨le_max_left _ _, max_le zero_le_one (min_le_left _ _)⟩

/-- The clamp function is monotone in its clamped value. -/
lemma clamp_mono (lo hi : ℚ) {a b : ℚ} (hab : a ≤ b) :
    clamp a lo hi ≤ clamp b lo hi :=
  max_le_max le_rfl (min_le_min le_rfl hab)

/-- The Hermite cubic `t * t * (3 - 2 * t)` is monotone on `[0, 1]`. -/
lemma hermite_mono {a b : ℚ} (h0 : 0 ≤ a) (hab : a ≤ b) (h1 : b ≤ 1) :
    a * a * (3 - 2 * a) ≤ b * b * (3 - 2 * b) := by
  nlinarith [mul_nonneg (sub_nonneg.2 hab) h0, mul_nonneg (sub_nonneg.2 hab) (sub_nonneg.2 h1),
    mul_nonneg h0 (sub_nonneg.2 h1), sq_nonneg (b - a), sq_nonneg (a + b),
    mul_nonneg (mul_nonneg (sub_nonneg.2 hab) h0) (sub_nonneg.2 h1)]

end PinBall

namespace PinBall

/-! ## Claim theorems -/

/-- C2: for every world point, camera position and non-zero zoom,
`screenToWorld` applied to the result of `worldToScreen` (same camera
position and zoom) returns the original world point; in this exact-rational
model of the double-precision code the round trip is exact. -/
theorem screenToWorld_worldToScreen (wx wy cameraX cameraY zoom : ℚ)
    (h : zoom ≠ 0) :
    screenToWorld (worldToScreen wx wy cameraX cameraY zoom).1
      (worldToScreen wx wy cameraX cameraY zoom).2 cameraX cameraY zoom = (wx, wy) := by
  simp only [worldToScreen, screenToWorld, Prod.mk.injEq]
  constructor <;> field_simp

/-- Witness for C2 at world point `(3, 5)`, camera `(1, 2)`, zoom `2`. -/
theorem screenToWorld_worldToScreen_witness :
    (2 : ℚ) ≠ 0 ∧
      screenToWorld (worldToScreen 3 5 1 2 2).1 (worldToScreen 3 5 1 2 2).2 1 2 2 = (3, 5) :=
  ⟨by norm_num, screenToWorld_worldToScreen 3 5 1 2 2 (by norm_num)⟩

/-- C4: in the documented scenario (viewport 540×960, world 1620×2880,
follow speed 0.08, entity at `(810, 1440)` with zero velocity, camera at
`(0,0)`, zoom 1.0), one `update(1/60)` call sets `targetPosition` to
`(540, 960)` — unchanged by the clamp to `[0,1080]×[0,1920]` — and leaves
`currentPosition` at `(43.2, 76.8) = (216/5, 384/5)`, with zoom still 1. -/
theorem scenario_one_update :
    (scenarioCam.update (1/60)).targetX = 540 ∧
      (scenarioCam.update (1/60)).targetY = 960 ∧
      (scenarioCam.update (1/60)).currentX = 216/5 ∧
      (scenarioCam.update (1/60)).currentY = 384/5 ∧
      (scenarioCam.update (1/60)).currentZoom = 1 := by
  refine ⟨?_, ?_, ?_, ?_, ?_⟩ <;>
    simp [Camera.update, Camera.preClampTargetX, Camera.preClampTargetY,
      scenarioCam, defaultConfig] <;> norm_num

/-- C6: for every camera state, whether or not an entity is followed,
`update(0)` leaves `currentPosition` and `currentZoom` unchanged (exactly,
in this rational model). -/
theorem update_zero_fixes_current (c : Camera) :
    (c.update 0).currentX = c.currentX ∧
      (c.update 0).currentY = c.currentY ∧
      (c.update 0).currentZoom = c.currentZoom := by
  refine ⟨?_, ?_, ?_⟩ <;> simp [Camera.update]

/-- C7: for every input level, `setZoom` stores
`targetZoom = clamp(level, minZoom, maxZoom)` — out-of-range input is
silently clamped, never rejected — and (when `minZoom ≤ maxZoom`) the
result lies in `[minZoom, maxZoom]`. -/
theorem setZoom_clamps (c : Camera) (level : ℚ)
    (h : c.config.minZoom ≤ c.config.maxZoom) :
    (c.setZoom level).targetZoom = clamp level c.config.minZoom c.config.maxZoom ∧
      c.config.minZoom ≤ (c.setZoom level).targetZoom ∧
      (c.setZoom level).targetZoom ≤ c.config.maxZoom :=
  ⟨rfl, le_max_left _ _, max_le h (min_le_left _ _)⟩

/-- Witness for C7: zoom request `5` on the documented configuration is
clamped into `[0.6, 1.2]`. -/
theorem setZoom_clamps_witness :
    scenarioCam.config.minZoom ≤ scenarioCam.config.maxZoom ∧
      ((scenarioCam.setZoom 5).targetZoom =
          clamp 5 scenarioCam.config.minZoom scenarioCam.config.maxZoom ∧
        scenarioCam.config.minZoom ≤ (scenarioCam.setZoom 5).targetZoom ∧
        (scenarioCam.setZoom 5).targetZoom ≤ scenarioCam.config.maxZoom) :=
  ⟨by norm_num [scenarioCam, defaultConfig],
    setZoom_clamps scenarioCam 5 (by norm_num [scenarioCam, defaultConfig])⟩

/-- C8: whenever an entity is followed, `update` computes the pre-clamp
target as `entityPosition − viewportSize/2 + entityVelocity * lookAhead`
(and the clamped `targetX` stored by `update` is that value clamped to the
world bounds); in the documented look-ahead scenario — entity at
`(810, 1440)`, velocity `(100, 0)`, look-ahead factor `0.5` — the pre-clamp
target is `(590, 960)`. -/
theorem update_lookahead_target (c : Camera) (b : Body) (h : c.target = some b) :
    (c.preClampTargetX = b.posX - c.config.viewportWidth / 2 + b.velX * c.config.lookAhead ∧
      c.preClampTargetY = b.posY - c.config.viewportHeight / 2 + b.velY * c.config.lookAhead) ∧
      (∀ dt : ℚ, (c.update dt).targetX =
        clamp c.preClampTargetX 0 (c.config.worldWidth - c.config.viewportWidth)) ∧
      lookAheadCam.preClampTargetX = 590 ∧ lookAheadCam.preClampTargetY = 960 := by
  refine ⟨⟨?_, ?_⟩, fun dt => ?_, ?_, ?_⟩
  · simp [Camera.preClampTargetX, h]
  · simp [Camera.preClampTargetY, h]
  · simp [Camera.update, clamp]
  · norm_num [Camera.preClampTargetX, lookAheadCam, defaultConfig]
  · norm_num [Camera.preClampTargetY, lookAheadCam, defaultConfig]

/-- Witness for C8 at the look-ahead scenario camera and its followed body. -/
theorem update_lookahead_target_witness :
    lookAheadCam.target = some { posX := 810, posY := 1440, velX := 100, velY := 0 } ∧
      ((lookAheadCam.preClampTargetX =
          810 - lookAheadCam.config.viewportWidth / 2 + 100 * lookAheadCam.config.lookAhead ∧
        lookAheadCam.preClampTargetY =
          1440 - lookAheadCam.config.viewportHeight / 2 + 0 * lookAheadCam.config.lookAhead) ∧
        (∀ dt : ℚ, (lookAheadCam.update dt).targetX =
          clamp lookAheadCam.preClampTargetX 0
            (lookAheadCam.config.worldWidth - lookAheadCam.config.viewportWidth)) ∧
        lookAheadCam.preClampTargetX = 590 ∧ lookAheadCam.preClampTargetY = 960) :=
  ⟨rfl, update_lookahead_target lookAheadCam _ rfl⟩

/-- C9: for `edge0 < edge1`, `smoothStep(edge0, edge1, edge0) = 0`,
`smoothStep(edge0, edge1, edge1) = 1`, and `smoothStep` is monotone
non-decreasing in its third argument on `[edge0, edge1]`. -/
theorem smoothStep_boundary_mono (edge0 edge1 : ℚ) (h : edge0 < edge1) :
    smoothStep edge0 edge1 edge0 = 0 ∧ smoothStep edge0 edge1 edge1 = 1 ∧
      ∀ x y : ℚ, edge0 ≤ x → x ≤ y → y ≤ edge1 →
        smoothStep edge0 edge1 x ≤ smoothStep edge0 edge1 y := by
  have hd : edge1 - edge0 > 0 := sub_pos.2 h
  refine ⟨?_, ?_, ?_⟩
  · simp [smoothStep, clamp]
  · rw [smoothStep]
    rw [div_self (ne_of_gt hd)]
    norm_num [clamp]
  · intro x y _ hxy _
    rw [smoothStep, smoothStep]
    have ht : clamp ((x - edge0) / (edge1 - edge0)) 0 1 ≤
        clamp ((y - edge0) / (edge1 - edge0)) 0 1 :=
      clamp_mono 0 1 (by
        apply div_le_div_of_nonneg_right _ hd.le
        linarith)
    exact hermite_mono (clamp01_mem _).1 ht (clamp01_mem _).2

/-- Witness for C9 on the unit interval, including a concrete interior
comparison obtained from the monotonicity clause. -/
theorem smoothStep_boundary_mono_witness :
    (0 : ℚ) < 1 ∧
      (smoothStep 0 1 0 = 0 ∧ smoothStep 0 1 1 = 1 ∧
        ∀ x y : ℚ, 0 ≤ x → x ≤ y → y ≤ 1 → smoothStep 0 1 x ≤ smoothStep 0 1 y) :=
  ⟨by norm_num, smoothStep_boundary_mono 0 1 (by norm_num)⟩

/-- C10: in the degenerate case `min > max` left undefined by the spec's
contract, the implemented `clamp` deterministically returns `min`, since it
computes `Math.max(min, Math.min(max, value))`. -/
theorem clamp_inverted_bounds (value lo hi : ℚ) (h : hi < lo) :
    clamp value lo hi = lo :=
  max_eq_left ((min_le_left hi value).trans h.le)

/-- Witness for C10: `clamp(7, 5, 3) = 5`. -/
theorem clamp_inverted_bounds_witness :
    (3 : ℚ) < 5 ∧ clamp 7 5 3 = 5 :=
  ⟨by norm_num, clamp_inverted_bounds 7 5 3 (by norm_num)⟩

/-- C1 counterexample: the source computes
`smoothFactor = followSpeed * deltaTime * 60` with no clamp.  In the
documented scenario, `update(1)` gives factor `0.08 * 1 * 60 = 4.8` and
moves `currentX` to `0 + (540 − 0) * 4.8 = 2592`, whereas advancing by the
claimed clamped factor `clamp(4.8, 0, 1) = 1` would give `540`. -/
theorem smoothFactor_unclamped_cex :
    (scenarioCam.update 1).currentX = 2592 ∧
      scenarioCam.currentX +
          ((scenarioCam.update 1).targetX - scenarioCam.currentX) *
            clamp (scenarioCam.config.followSpeed * 1 * 60) 0 1 = 540 ∧
      (2592 : ℚ) ≠ 540 := by
  refine ⟨?_, ?_, by norm_num⟩ <;>
    norm_num [Camera.update, Camera.preClampTargetX, clamp, scenarioCam, defaultConfig]

/-- C1 amended: in `Camera.update(deltaTime)` the smoothing factor is
`followSpeed * deltaTime * 60` with no clamping (so it exceeds 1 once
`deltaTime > 1/(60·followSpeed)`); `currentPosition` is advanced from its
old value toward the world-bounds-clamped target by linear interpolation
with that factor, and `currentZoom` toward `targetZoom` by the same
factor. -/
theorem update_smoothing (c : Camera) (dt : ℚ) :
    (c.update dt).currentX =
      lerp c.currentX
        (clamp c.preClampTargetX 0 (c.config.worldWidth - c.config.viewportWidth))
        (c.config.followSpeed * dt * 60) ∧
      (c.update dt).currentY =
        lerp c.currentY
          (clamp c.preClampTargetY 0 (c.config.worldHeight - c.config.viewportHeight))
          (c.config.followSpeed * dt * 60) ∧
      (c.update dt).currentZoom =
        lerp c.currentZoom c.targetZoom (c.config.followSpeed * dt * 60) :=
  ⟨rfl, rfl, rfl⟩

/-- C3 counterexample: with the camera inside bounds (at the origin) and the
world at least as large as the viewport, the call `update(1)` — smoothing
factor `4.8` — pushes `currentX` to `2592`, outside
`[0, worldWidth − viewportWidth] = [0, 1080]`. -/
theorem position_bounds_cex :
    scenarioCam.config.viewportWidth ≤ scenarioCam.config.worldWidth ∧
      scenarioCam.config.viewportHeight ≤ scenarioCam.config.worldHeight ∧
      (0 ≤ scenarioCam.currentX ∧
        scenarioCam.currentX ≤ scenarioCam.config.worldWidth - scenarioCam.config.viewportWidth) ∧
      (0 ≤ scenarioCam.currentY ∧
        scenarioCam.currentY ≤ scenarioCam.config.worldHeight - scenarioCam.config.viewportHeight) ∧
      (scenarioCam.update 1).currentX = 2592 ∧
      ¬((scenarioCam.update 1).currentX ≤
          scenarioCam.config.worldWidth - scenarioCam.config.viewportWidth) := by
  refine ⟨?_, ?_, ⟨?_, ?_⟩, ⟨?_, ?_⟩, ?_, ?_⟩ <;>
    norm_num [Camera.update, Camera.preClampTargetX, scenarioCam, defaultConfig]

/-- A linear interpolation step with factor in `[0, 1]` between two points
of an interval stays in the interval. -/
lemma lerp_step_mem {lo hi x t f : ℚ} (hx0 : lo ≤ x) (hx1 : x ≤ hi)
    (ht0 : lo ≤ t) (ht1 : t ≤ hi) (hf0 : 0 ≤ f) (hf1 : f ≤ 1) :
    lo ≤ x + (t - x) * f ∧ x + (t - x) * f ≤ hi := by
  constructor
  · nlinarith [mul_nonneg (sub_nonneg.2 hx0) (sub_nonneg.2 hf1),
      mul_nonneg (sub_nonneg.2 ht0) hf0]
  · nlinarith [mul_nonneg (sub_nonneg.2 hx1) (sub_nonneg.2 hf1),
      mul_nonneg (sub_nonneg.2 ht1) hf0]

/-- C3 amended: assuming `worldSize ≥ viewportSize` componentwise, the
camera starting inside `[0, worldSize − viewportSize]`, and a call whose
smoothing factor `followSpeed * deltaTime * 60` lies in `[0, 1]` (which the
source does not itself guarantee — see the counterexample for larger time
steps), `currentPosition` stays inside `[0, worldSize − viewportSize]`
after `update`, for every followed-entity position. -/
theorem update_position_in_bounds (c : Camera) (dt : ℚ)
    (hw : c.config.viewportWidth ≤ c.config.worldWidth)
    (hh : c.config.viewportHeight ≤ c.config.worldHeight)
    (hf0 : 0 ≤ c.config.followSpeed * dt * 60)
    (hf1 : c.config.followSpeed * dt * 60 ≤ 1)
    (hx0 : 0 ≤ c.currentX)
    (hx1 : c.currentX ≤ c.config.worldWidth - c.config.viewportWidth)
    (hy0 : 0 ≤ c.currentY)
    (hy1 : c.currentY ≤ c.config.worldHeight - c.config.viewportHeight) :
    (0 ≤ (c.update dt).currentX ∧
        (c.update dt).currentX ≤ c.config.worldWidth - c.config.viewportWidth) ∧
      (0 ≤ (c.update dt).currentY ∧
        (c.update dt).currentY ≤ c.config.worldHeight - c.config.viewportHeight) := by
  constructor
  · exact lerp_step_mem hx0 hx1 (le_max_left _ _)
      (max_le (sub_nonneg.2 hw) (min_le_left _ _)) hf0 hf1
  · exact lerp_step_mem hy0 hy1 (le_max_left _ _)
      (max_le (sub_nonneg.2 hh) (min_le_left _ _)) hf0 hf1

/-- Witness for the amended C3 at the documented scenario with the nominal
frame time `1/60` (smoothing factor `0.08`). -/
theorem update_position_in_bounds_witness :
    (scenarioCam.config.viewportWidth ≤ scenarioCam.config.worldWidth ∧
        scenarioCam.config.viewportHeight ≤ scenarioCam.config.worldHeight ∧
        0 ≤ scenarioCam.config.followSpeed * (1/60) * 60 ∧
        scenarioCam.config.followSpeed * (1/60) * 60 ≤ 1 ∧
        0 ≤ scenarioCam.currentX ∧
        scenarioCam.currentX ≤ scenarioCam.config.worldWidth - scenarioCam.config.viewportWidth ∧
        0 ≤ scenarioCam.currentY ∧
        scenarioCam.currentY ≤ scenarioCam.config.worldHeight - scenarioCam.config.viewportHeight) ∧
      ((0 ≤ (scenarioCam.update (1/60)).currentX ∧
          (scenarioCam.update (1/60)).currentX ≤
            scenarioCam.config.worldWidth - scenarioCam.config.viewportWidth) ∧
        (0 ≤ (scenarioCam.update (1/60)).currentY ∧
          (scenarioCam.update (1/60)).currentY ≤
            scenarioCam.config.worldHeight - scenarioCam.config.viewportHeight)) :=
  ⟨by norm_num [scenarioCam, defaultConfig],
    update_position_in_bounds scenarioCam (1/60)
      (by norm_num [scenarioCam, defaultConfig]) (by norm_num [scenarioCam, defaultConfig])
      (by norm_num [scenarioCam, defaultConfig]) (by norm_num [scenarioCam, defaultConfig])
      (by norm_num [scenarioCam]) (by norm_num [scenarioCam, defaultConfig])
      (by norm_num [scenarioCam]) (by norm_num [scenarioCam, defaultConfig])⟩

/-- Closed form for iterated updates toward a fixed target: when no entity
is followed and the stored target lies inside the world-bounds clamp range,
the target fields are invariant under `update` and each residual
(target minus current) is multiplied by `1 − followSpeed·dt·60` every
step. -/
lemma updateIter_fixed_target (c : Camera) (dt : ℚ) (ht : c.target = none)
    (hx0 : 0 ≤ c.targetX)
    (hx1 : c.targetX ≤ c.config.worldWidth - c.config.viewportWidth)
    (hy0 : 0 ≤ c.targetY)
    (hy1 : c.targetY ≤ c.config.worldHeight - c.config.viewportHeight) :
    ∀ n : ℕ,
      (c.updateIter dt n).config = c.config ∧
      (c.updateIter dt n).target = none ∧
      (c.updateIter dt n).targetX = c.targetX ∧
      (c.updateIter dt n).targetY = c.targetY ∧
      (c.updateIter dt n).targetZoom = c.targetZoom ∧
      c.targetX - (c.updateIter dt n).currentX =
        (1 - c.config.followSpeed * dt * 60) ^ n * (c.targetX - c.currentX) ∧
      c.targetY - (c.updateIter dt n).currentY =
        (1 - c.config.followSpeed * dt * 60) ^ n * (c.targetY - c.currentY) ∧
      c.targetZoom - (c.updateIter dt n).currentZoom =
        (1 - c.config.followSpeed * dt * 60) ^ n * (c.targetZoom - c.currentZoom) := by
  intro n
  induction n with
  | zero => simp [Camera.updateIter, ht]
  | succ n ih =>
    obtain ⟨hcfg, htgt, htx, hty, htz, hrx, hry, hrz⟩ := ih
    have hpreX : (c.updateIter dt n).preClampTargetX = c.targetX := by
      rw [Camera.preClampTargetX, htgt, htx]
    have hpreY : (c.updateIter dt n).preClampTargetY = c.targetY := by
      rw [Camera.preClampTargetY, htgt, hty]
    have hclX : max 0 (min ((c.updateIter dt n).config.worldWidth -
        (c.updateIter dt n).config.viewportWidth) ((c.updateIter dt n).preClampTargetX)) =
        c.targetX := by
      rw [hpreX, hcfg, min_eq_right hx1, max_eq_right hx0]
    have hclY : max 0 (min ((c.updateIter dt n).config.worldHeight -
        (c.updateIter dt n).config.viewportHeight) ((c.updateIter dt n).preClampTargetY)) =
        c.targetY := by
      rw [hpreY, hcfg, min_eq_right hy1, max_eq_right hy0]
    have hf : (c.updateIter dt n).config.followSpeed = c.config.followSpeed := by rw [hcfg]
    refine ⟨?_, ?_, ?_, ?_, ?_, ?_, ?_, ?_⟩
    · rw [Camera.updateIter]; exact hcfg
    · rw [Camera.updateIter]; exact htgt
    · show max 0 _ = _
      exact hclX
    · show max 0 _ = _
      exact hclY
    · rw [Camera.updateIter]; exact htz
    · show c.targetX - ((c.updateIter dt n).currentX +
        (max 0 (min _ _) - (c.updateIter dt n).currentX) * _) = _
      rw [hclX, hf, pow_succ]
      linear_combination (1 - c.config.followSpeed * dt * 60) * hrx
    · show c.targetY - ((c.updateIter dt n).currentY +
        (max 0 (min _ _) - (c.updateIter dt n).currentY) * _) = _
      rw [hclY, hf, pow_succ]
      linear_combination (1 - c.config.followSpeed * dt * 60) * hry
    · show c.targetZoom - ((c.updateIter dt n).currentZoom +
        ((c.updateIter dt n).targetZoom - (c.updateIter dt n).currentZoom) * _) = _
      rw [htz, hf, pow_succ]
      linear_combination (1 - c.config.followSpeed * dt * 60) * hrz

/-- C5 counterexample: with the fixed target `(540, 960)` and the camera at
the origin, the single step `update(1)` (a legal `Δt > 0`) has smoothing
factor `4.8`: the distance `|targetX − currentX|` grows from `540` to
`2052`, and `currentX` overshoots past the target. -/
theorem convergence_cex :
    fixedCam.target = none ∧
      (fixedCam.updateIter 1 1).targetX = 540 ∧
      |fixedCam.targetX - fixedCam.currentX| = 540 ∧
      |(fixedCam.updateIter 1 1).targetX - (fixedCam.updateIter 1 1).currentX| = 2052 ∧
      ¬(|(fixedCam.updateIter 1 1).targetX - (fixedCam.updateIter 1 1).currentX| ≤
          |fixedCam.targetX - fixedCam.currentX|) ∧
      (fixedCam.updateIter 1 1).currentX > (fixedCam.updateIter 1 1).targetX := by
  refine ⟨rfl, ?_, ?_, ?_, ?_, ?_⟩ <;>
    norm_num [Camera.updateIter, Camera.update, Camera.preClampTargetX, Camera.preClampTargetY,
      fixedCam, defaultConfig, abs]

/-- C5 amended: for a fixed, unmoving target (no followed entity, stored
target inside the clamp range) and repeated `update(Δt)` calls whose
smoothing factor `followSpeed·Δt·60` lies in `(0, 1]` — the source does not
itself bound the factor, see the counterexample — each residual distance
`|target − current|` (componentwise, and for zoom) is non-increasing at
every step, becomes smaller than any positive bound eventually, and
`current` never overshoots past the target (the residual never changes
sign). -/
theorem update_fixed_target_converges (c : Camera) (dt : ℚ)
    (hf0 : 0 < c.config.followSpeed * dt * 60)
    (hf1 : c.config.followSpeed * dt * 60 ≤ 1)
    (ht : c.target = none)
    (hx0 : 0 ≤ c.targetX)
    (hx1 : c.targetX ≤ c.config.worldWidth - c.config.viewportWidth)
    (hy0 : 0 ≤ c.targetY)
    (hy1 : c.targetY ≤ c.config.worldHeight - c.config.viewportHeight) :
    (∀ n : ℕ,
        |c.targetX - (c.updateIter dt (n+1)).currentX| ≤
          |c.targetX - (c.updateIter dt n).currentX| ∧
        |c.targetY - (c.updateIter dt (n+1)).currentY| ≤
          |c.targetY - (c.updateIter dt n).currentY| ∧
        |c.targetZoom - (c.updateIter dt (n+1)).currentZoom| ≤
          |c.targetZoom - (c.updateIter dt n).currentZoom|) ∧
      (∀ ε : ℚ, 0 < ε → ∃ n : ℕ,
        |c.targetX - (c.updateIter dt n).currentX| ≤ ε ∧
        |c.targetY - (c.updateIter dt n).currentY| ≤ ε ∧
        |c.targetZoom - (c.updateIter dt n).currentZoom| ≤ ε) ∧
      (∀ n : ℕ,
        0 ≤ (c.targetX - (c.updateIter dt n).currentX) * (c.targetX - c.currentX) ∧
        0 ≤ (c.targetY - (c.updateIter dt n).currentY) * (c.targetY - c.currentY) ∧
        0 ≤ (c.targetZoom - (c.updateIter dt n).currentZoom) *
          (c.targetZoom - c.currentZoom)) := by
  have key := updateIter_fixed_target c dt ht hx0 hx1 hy0 hy1
  set r : ℚ := 1 - c.config.followSpeed * dt * 60 with hr
  have hr0 : 0 ≤ r := by simp only [hr]; linarith
  have hr1 : r < 1 := by simp only [hr]; linarith
  have habs : ∀ n : ℕ, ∀ d : ℚ, |r ^ n * d| = r ^ n * |d| := by
    intro n d
    rw [abs_mul, abs_of_nonneg (pow_nonneg hr0 n)]
  refine ⟨?_, ?_, ?_⟩
  · intro n
    have hx := (key n).2.2.2.2.2.1
    have hy := (key n).2.2.2.2.2.2.1
    have hz := (key n).2.2.2.2.2.2.2
    have hx' := (key (n+1)).2.2.2.2.2.1
    have hy' := (key (n+1)).2.2.2.2.2.2.1
    have hz' := (key (n+1)).2.2.2.2.2.2.2
    have step : ∀ d : ℚ, |r ^ (n+1) * d| ≤ |r ^ n * d| := by
      intro d
      rw [habs, habs]
      exact mul_le_mul_of_nonneg_right
        (pow_le_pow_of_le_one hr0 hr1.le (Nat.le_succ n)) (abs_nonneg d)
    exact ⟨hx' ▸ hx ▸ step _, hy' ▸ hy ▸ step _, hz' ▸ hz ▸ step _⟩
  · intro ε hε
    set D : ℚ := |c.targetX - c.currentX| ⊔ (|c.targetY - c.currentY| ⊔
      |c.targetZoom - c.currentZoom|) with hD
    have hD1 : 0 < D + 1 := by
      have : (0:ℚ) ≤ D := le_trans (abs_nonneg _) (le_max_left _ _)
      linarith
    obtain ⟨n, hn⟩ := exists_pow_lt_of_lt_one (div_pos hε hD1) hr1
    have hrn : r ^ n * (D + 1) < ε := (lt_div_iff₀ hD1).mp hn
    refine ⟨n, ?_, ?_, ?_⟩
    · rw [(key n).2.2.2.2.2.1, habs]
      have : |c.targetX - c.currentX| ≤ D + 1 := by
        have := le_max_left |c.targetX - c.currentX| (|c.targetY - c.currentY| ⊔
          |c.targetZoom - c.currentZoom|)
        linarith
      nlinarith [pow_nonneg hr0 n]
    · rw [(key n).2.2.2.2.2.2.1, habs]
      have h1 : |c.targetY - c.currentY| ≤ D + 1 := by
        have h2 := le_max_left |c.targetY - c.currentY| |c.targetZoom - c.currentZoom|
        have h3 := le_max_right |c.targetX - c.currentX| (|c.targetY - c.currentY| ⊔
          |c.targetZoom - c.currentZoom|)
        have : |c.targetY - c.currentY| ≤ D := le_trans h2 h3
        linarith
      nlinarith [pow_nonneg hr0 n]
    · rw [(key n).2.2.2.2.2.2.2, habs]
      have h1 : |c.targetZoom - c.currentZoom| ≤ D + 1 := by
        have h2 := le_max_right |c.targetY - c.currentY| |c.targetZoom - c.currentZoom|
        have h3 := le_max_right |c.targetX - c.currentX| (|c.targetY - c.currentY| ⊔
          |c.targetZoom - c.currentZoom|)
        have : |c.targetZoom - c.currentZoom| ≤ D := le_trans h2 h3
        linarith
      nlinarith [pow_nonneg hr0 n]
  · intro n
    refine ⟨?_, ?_, ?_⟩
    · rw [(key n).2.2.2.2.2.1, mul_assoc]
      exact mul_nonneg (pow_nonneg hr0 n) (mul_self_nonneg _)
    · rw [(key n).2.2.2.2.2.2.1, mul_assoc]
      exact mul_nonneg (pow_nonneg hr0 n) (mul_self_nonneg _)
    · rw [(key n).2.2.2.2.2.2.2, mul_assoc]
      exact mul_nonneg (pow_nonneg hr0 n) (mul_self_nonneg _)

/-- Witness for the amended C5 at the fixed-target camera with the nominal
frame time `1/60` (smoothing factor `0.08`). -/
theorem update_fixed_target_converges_witness :
    (0 < fixedCam.config.followSpeed * (1/60) * 60 ∧
        fixedCam.config.followSpeed * (1/60) * 60 ≤ 1 ∧
        fixedCam.target = none ∧
        0 ≤ fixedCam.targetX ∧
        fixedCam.targetX ≤ fixedCam.config.worldWidth - fixedCam.config.viewportWidth ∧
        0 ≤ fixedCam.targetY ∧
        fixedCam.targetY ≤ fixedCam.config.worldHeight - fixedCam.config.viewportHeight) ∧
      ((∀ n : ℕ,
          |fixedCam.targetX - (fixedCam.updateIter (1/60) (n+1)).currentX| ≤
            |fixedCam.targetX - (fixedCam.updateIter (1/60) n).currentX| ∧
          |fixedCam.targetY - (fixedCam.updateIter (1/60) (n+1)).currentY| ≤
            |fixedCam.targetY - (fixedCam.updateIter (1/60) n).currentY| ∧
          |fixedCam.targetZoom - (fixedCam.updateIter (1/60) (n+1)).currentZoom| ≤
            |fixedCam.targetZoom - (fixedCam.updateIter (1/60) n).currentZoom|) ∧
        (∀ ε : ℚ, 0 < ε → ∃ n : ℕ,
          |fixedCam.targetX - (fixedCam.updateIter (1/60) n).currentX| ≤ ε ∧
          |fixedCam.targetY - (fixedCam.updateIter (1/60) n).currentY| ≤ ε ∧
          |fixedCam.targetZoom - (fixedCam.updateIter (1/60) n).currentZoom| ≤ ε) ∧
        (∀ n : ℕ,
          0 ≤ (fixedCam.targetX - (fixedCam.updateIter (1/60) n).currentX) *
            (fixedCam.targetX - fixedCam.currentX) ∧
          0 ≤ (fixedCam.targetY - (fixedCam.updateIter (1/60) n).currentY) *
            (fixedCam.targetY - fixedCam.currentY) ∧
          0 ≤ (fixedCam.targetZoom - (fixedCam.updateIter (1/60) n).currentZoom) *
            (fixedCam.targetZoom - fixedCam.currentZoom))) :=
  ⟨by norm_num [fixedCam, defaultConfig],
    update_fixed_target_converges fixedCam (1/60)
      (by norm_num [fixedCam, defaultConfig]) (by norm_num [fixedCam, defaultConfig])
      rfl
      (by norm_num [fixedCam]) (by norm_num [fixedCam, defaultConfig])
      (by norm_num [fixedCam]) (by norm_num [fixedCam, defaultConfig])⟩

end PinBall